import Mathlib

/-!
Verification development for the RAG Desktop Assistant repository.

This file gives a shallow embedding, in Lean, of the pure control flow of
the core RAG pipeline of the repository:

* `src/core/tools.py` — the calculator tool (character whitelist, space
  stripping, function-name substitution before evaluation);
* `src/core/nlp_processor.py` — the local NLP generator entry point
  `process_question` and its tool short-circuit `_check_and_execute_tools`;
* `src/core/gemini_processor.py` — the streaming branch of the remote
  generator `process_question`;
* `src/core/vector_store.py` — `add_documents` identity-based deduplication;
* `src/core/analytics.py` — `log_query` and `update_user_feedback` on the
  query-metrics table;
* `src/core/rag_engine.py` — `RAGEngine.query` orchestration.

External effectful capabilities (the Python `eval` inside the calculator,
the system clock, the remote model, the embedding model) are passed in as
explicit parameters, so that every definition stays an executable function
of its inputs. Machine floats that the code merely records (timings,
distances) are carried as rationals, since no claim computes with them.
-/

/- ### Python string primitives

Small executable models of the Python string operations the source uses:
substring containment (the `in` operator), whitespace stripping (`strip`),
`str.replace`, `re.findall` over a character class, and `enumerate`. -/

/-- Model of testing whether the character list `pat` is a prefix of `s`. -/
def charsIsPrefix (pat s : List Char) : Bool :=
  match pat, s with
  | [], _ => true
  | _ :: _, [] => false
  | p :: ps, c :: cs => p == c && charsIsPrefix ps cs

/-- Model of testing whether `pat` occurs as a contiguous sublist of `s`. -/
def charsHasSub (pat : List Char) : List Char → Bool
  | [] => charsIsPrefix pat []
  | c :: cs => charsIsPrefix pat (c :: cs) || charsHasSub pat cs

/-- Model of the Python expression `needle in hay` on strings. -/
def pyIn (needle hay : String) : Bool :=
  charsHasSub needle.data hay.data

/-- Model of Python `str.lower()` on ASCII input, character by character
(kept as an explicit list map so that it computes by kernel reduction). -/
def pyLower (s : String) : String :=
  String.mk (s.data.map Char.toLower)

/-- Characters matched by the Python regex class `\s` (ASCII inputs). -/
def pyIsSpace (c : Char) : Bool :=
  c == ' ' || c == '\t' || c == '\n' || c == '\r' || c == '\x0b' || c == '\x0c'

/-- Model of Python `str.strip()`: drop whitespace from both ends. -/
def pyStrip (s : String) : String :=
  String.mk (((s.data.dropWhile pyIsSpace).reverse.dropWhile pyIsSpace).reverse)

/-- Fuel-driven worker for `pyReplace`; the fuel is the input length, which
bounds the number of steps because each step consumes at least one
character when the pattern is non-empty. -/
def pyReplaceAux (pat rep : List Char) : Nat → List Char → List Char
  | 0, l => l
  | _ + 1, [] => []
  | fuel + 1, c :: cs =>
    if charsIsPrefix pat (c :: cs) then
      rep ++ pyReplaceAux pat rep fuel (List.drop (pat.length - 1) cs)
    else
      c :: pyReplaceAux pat rep fuel cs

/-- Model of Python `str.replace(pat, rep)`: replace every non-overlapping
occurrence, scanning left to right. -/
def pyReplace (s pat rep : String) : String :=
  if pat.data.isEmpty then s
  else String.mk (pyReplaceAux pat.data rep.data s.data.length s.data)

/-- Worker for `pyFindRuns`: `cur` holds the current (reversed) run of
characters satisfying `p`. -/
def pyFindRunsAux (p : Char → Bool) : List Char → List Char → List String
  | cur, [] => if cur.isEmpty then [] else [String.mk cur.reverse]
  | cur, c :: cs =>
    if p c then pyFindRunsAux p (c :: cur) cs
    else if cur.isEmpty then pyFindRunsAux p [] cs
    else String.mk cur.reverse :: pyFindRunsAux p [] cs

/-- Model of `re.findall` for a regex of the shape `[class]+`: the maximal
runs of characters of the class, left to right. -/
def pyFindRuns (p : Char → Bool) (s : String) : List String :=
  pyFindRunsAux p [] s.data

/-- Model of Python `enumerate(xs, n)`. -/
def enumFr (n : Nat) : List α → List (Nat × α)
  | [] => []
  | a :: as => (n, a) :: enumFr (n + 1) as

/-- Concatenation of a list of strings, used to state round-trip facts
about streamed fragments. -/
def concatAll : List String → String
  | [] => ""
  | s :: ss => s ++ concatAll ss

/- ### `src/core/tools.py` — `ToolRegistry._calculator`

The calculator removes spaces, checks every remaining character (lower
cased) against a fixed whitelist, rewrites the whitelisted function names
to their `math.` forms and only then hands the string to the Python `eval`.
The outcome type records exactly that branch structure: either the
expression is rejected before any evaluation, or `eval` is reached on the
space-stripped expression. -/

/-- Character whitelist of `_calculator` (tools.py line 97): digits, the
arithmetic operators, parentheses, the dot, and the letters occurring in
the whitelisted function names sin, cos, tan, log, sqrt, pi, e. -/
def calcAllowedChars : List Char :=
  "0123456789+-*/.()sincotanlogqrtpie".data

/-- Model of `expression.replace(" ", "")` (tools.py line 94): only the
plain space character is removed, before the whitelist check. -/
def calcStripSpaces (s : String) : String :=
  String.mk (s.data.filter (fun c => !(c == ' ')))

/-- Model of the whitelist test (tools.py line 98): every character of the
space-stripped expression must have its lowercase form in the whitelist. -/
def calcCharsOk (s : String) : Bool :=
  s.data.all (fun c => calcAllowedChars.contains c.toLower)

/-- Outcome of the calculator front end: either the expression is rejected
with the fixed message before any evaluation, or the Python `eval` is
reached on the given space-stripped expression. -/
inductive CalcOutcome where
  | rejected
  | evaluated (strippedExpr : String)
  deriving DecidableEq, Repr

/-- Model of the branch structure of `_calculator` (tools.py lines 91-115):
strip spaces, then either reject on a non-whitelisted character or proceed
to evaluation of the stripped expression. -/
def calculatorOutcome (expression : String) : CalcOutcome :=
  let e := calcStripSpaces expression
  if calcCharsOk e then CalcOutcome.evaluated e else CalcOutcome.rejected

/-- Model of the function-name substitutions applied before `eval`
(tools.py lines 103-109), in source order. -/
def calcTransform (s : String) : String :=
  pyReplace (pyReplace (pyReplace (pyReplace (pyReplace (pyReplace (pyReplace
    s "sin" "math.sin") "cos" "math.cos") "tan" "math.tan") "log" "math.log")
    "sqrt" "math.sqrt") "pi" "math.pi") "e" "math.e"

/-- Rejection string returned by `_calculator` (tools.py line 99). -/
def calcRejectMsg : String := "Invalid characters in expression"

/-- Model of the full string returned by `_calculator`, with the Python
`eval` try-block abstracted as `pyEval` (it yields either a Result string
or a Calculation error string; its value is external to this model). -/
def calculatorRun (pyEval : String → String) (expression : String) : String :=
  match calculatorOutcome expression with
  | CalcOutcome.rejected => calcRejectMsg
  | CalcOutcome.evaluated e => pyEval (calcTransform e)

example : calculatorOutcome "2+2" = CalcOutcome.evaluated "2+2" := by decide

example : calculatorOutcome "2 2" = CalcOutcome.evaluated "22" := by decide

example : calculatorOutcome "__import__(\x27os\x27)" = CalcOutcome.rejected := by
  decide

/- ### `src/core/tools.py` — `_text_analyzer` word counting and number
extraction, and `src/core/nlp_processor.py` — `_check_and_execute_tools`

The tool short-circuit of the local NLP generator is pure string pattern
matching; only the results of the genuinely external pieces (the Python
`eval`, the clock, the date parser, the e-mail regex) are supplied as
parameters in `ToolExt`. -/

/-- Model of Python `len(text.split())`: the number of maximal runs of
non-whitespace characters. -/
def pyWordCount (s : String) : Nat :=
  (pyFindRuns (fun c => !pyIsSpace c) s).length

/-- Scanner state for the regex `\d+(?:\.\d+)?` used by `extract_numbers`
in `_text_analyzer` (tools.py line 152). -/
inductive NumScanState where
  | scan
  | intPart (acc : List Char)
  | dotPending (acc : List Char)
  | fracPart (acc : List Char)

/-- Worker for `pyNumTokens`: a left-to-right non-overlapping scan for
maximal matches of `\d+(?:\.\d+)?`. A character that cannot extend the
current match can never start a new one (matches start with a digit), so
every recursive call is on the tail of the input. -/
def pyNumTokensAux : NumScanState → List Char → List String
  | NumScanState.scan, [] => []
  | NumScanState.scan, c :: cs =>
    if c.isDigit then pyNumTokensAux (NumScanState.intPart [c]) cs
    else pyNumTokensAux NumScanState.scan cs
  | NumScanState.intPart acc, [] => [String.mk acc.reverse]
  | NumScanState.intPart acc, c :: cs =>
    if c.isDigit then pyNumTokensAux (NumScanState.intPart (c :: acc)) cs
    else if c == '.' then pyNumTokensAux (NumScanState.dotPending acc) cs
    else String.mk acc.reverse :: pyNumTokensAux NumScanState.scan cs
  | NumScanState.dotPending acc, [] => [String.mk acc.reverse]
  | NumScanState.dotPending acc, c :: cs =>
    if c.isDigit then pyNumTokensAux (NumScanState.fracPart (c :: '.' :: acc)) cs
    else String.mk acc.reverse :: pyNumTokensAux NumScanState.scan cs
  | NumScanState.fracPart acc, [] => [String.mk acc.reverse]
  | NumScanState.fracPart acc, c :: cs =>
    if c.isDigit then pyNumTokensAux (NumScanState.fracPart (c :: acc)) cs
    else String.mk acc.reverse :: pyNumTokensAux NumScanState.scan cs

/-- Model of `re.findall` for the pattern `\d+(?:\.\d+)?`. -/
def pyNumTokens (s : String) : List String :=
  pyNumTokensAux NumScanState.scan s.data

/-- Model of Python `", ".join(xs)`. -/
def commaJoin : List String → String
  | [] => ""
  | [s] => s
  | s :: ss => s ++ ", " ++ commaJoin ss

/-- External capabilities reached from the tool short-circuit: the Python
`eval` of the calculator (applied to the transformed expression and
producing the full try-block string), the clock strings, the date-diff
result string of `_date_calculator`, and the e-mail regex matcher of
`_text_analyzer` (word-boundary regex, left external). -/
structure ToolExt where
  pyEval : String → String
  todayStr : String
  nowStr : String
  dateDiffResult : String → String → String
  emailsOf : String → List String

/-- Characters of the regex class `[0-9+\-*/().\s%]` used by the findall of
the math branch (nlp_processor.py line 288). -/
def mathRunChar (c : Char) : Bool :=
  c.isDigit || c == '+' || c == '-' || c == '*' || c == '/' || c == '(' ||
    c == ')' || c == '.' || c == '%' || pyIsSpace c

/-- Characters of the regex class `[0-9+\-*/().%]` used by the re.search
trigger of the math branch (nlp_processor.py line 286); note it has no
whitespace, unlike the findall class. -/
def mathTriggerChar (c : Char) : Bool :=
  c.isDigit || c == '+' || c == '-' || c == '*' || c == '/' || c == '(' ||
    c == ')' || c == '.' || c == '%'

/-- Keyword triggers of the math branch (nlp_processor.py line 285). -/
def mathPatterns : List String :=
  ["calculate", "compute", "math", "what is", "how much", "add", "subtract",
    "multiply", "divide"]

/-- Keyword triggers of the date branch (nlp_processor.py line 296). -/
def datePatterns : List String :=
  ["date", "today", "current time", "what time", "days between", "add days",
    "subtract days"]

/-- Keyword triggers of the text-analysis branch (nlp_processor.py
line 313). -/
def textPatterns : List String :=
  ["word count", "character count", "count words", "count characters",
    "how many words", "how many characters"]

/-- Model of the per-expression body of the math branch loop
(nlp_processor.py lines 289-293): the first extracted run that contains an
operator and is longer than two characters once stripped is cleaned and
fed to the calculator tool. -/
def mathExprStep (ext : ToolExt) (expr : String) : Option String :=
  if (["+", "-", "*", "/", "%"].any (fun op => pyIn op expr)) &&
      (pyStrip expr).length > 2 then
    some ("Calculation: " ++
      calculatorRun ext.pyEval (pyStrip (pyReplace expr "%" "/100")))
  else none

/-- Model of the math branch of `_check_and_execute_tools`
(nlp_processor.py lines 285-293). -/
def checkMathBranch (ext : ToolExt) (question : String) : Option String :=
  if mathPatterns.any (fun w => pyIn w (pyLower question)) ||
      question.data.any mathTriggerChar then
    (pyFindRuns mathRunChar question).findSome? (mathExprStep ext)
  else none

/-- Worker for `pyDateTokens`: left-to-right non-overlapping matches of the
fixed-width pattern `\d{4}-\d{2}-\d{2}`; on a match the scan resumes after
the matched ten characters, otherwise it advances by one. -/
def pyDateTokensAux : List Char → List String
  | a :: b :: c :: d :: '-' :: e :: f :: '-' :: g :: h :: rest =>
    if a.isDigit && b.isDigit && c.isDigit && d.isDigit && e.isDigit &&
        f.isDigit && g.isDigit && h.isDigit then
      String.mk [a, b, c, d, '-', e, f, '-', g, h] :: pyDateTokensAux rest
    else
      pyDateTokensAux (b :: c :: d :: '-' :: e :: f :: '-' :: g :: h :: rest)
  | _ :: rest => pyDateTokensAux rest
  | [] => []

/-- Model of `re.findall` for the pattern `\d{4}-\d{2}-\d{2}` used by the
days-between branch (nlp_processor.py line 304). -/
def pyDateTokens (s : String) : List String :=
  pyDateTokensAux s.data

/-- Model of the date branch of `_check_and_execute_tools`
(nlp_processor.py lines 296-310). Falls through (returns `none`) when the
branch keyword fires but no sub-condition produces a return, exactly as the
source does. -/
def checkDateBranch (ext : ToolExt) (question : String) : Option String :=
  let q := pyLower question
  if datePatterns.any (fun w => pyIn w q) then
    if pyIn "today" q || pyIn "current date" q then
      some ("Current date: " ++ ext.todayStr)
    else if pyIn "current time" q || pyIn "what time" q then
      some ("Current time: " ++ ext.nowStr)
    else if pyIn "days between" q then
      match pyDateTokens question with
      | d1 :: d2 :: _ => some (ext.dateDiffResult d1 d2)
      | _ => none
    else none
  else none

/-- Model of the text-analysis branch of `_check_and_execute_tools`
(nlp_processor.py lines 313-319), with the word and character counters of
`_text_analyzer` (tools.py lines 145-150) inlined. -/
def checkTextBranch (question context : String) : Option String :=
  let q := pyLower question
  if textPatterns.any (fun w => pyIn w q) then
    if !(context == "") then
      if pyIn "word" q || pyIn "words" q then
        some ("Word count: " ++ toString (pyWordCount context))
      else if pyIn "character" q || pyIn "characters" q || pyIn "char" q then
        some ("Character count: " ++ toString context.length)
      else none
    else none
  else none

/-- Model of the e-mail extraction branch (nlp_processor.py lines 322-323,
tools.py lines 154-156); the e-mail regex itself is external. -/
def checkEmailBranch (ext : ToolExt) (question context : String) : Option String :=
  let q := pyLower question
  if pyIn "email" q && pyIn "extract" q && !(context == "") then
    some ("Emails found: " ++ commaJoin (ext.emailsOf context))
  else none

/-- Model of the number extraction branch (nlp_processor.py lines 326-327,
tools.py lines 151-153). -/
def checkNumberBranch (question context : String) : Option String :=
  let q := pyLower question
  if pyIn "number" q && pyIn "extract" q && !(context == "") then
    some ("Numbers found: " ++ commaJoin (pyNumTokens context))
  else none

/-- Model of `NLPProcessor._check_and_execute_tools` (nlp_processor.py
lines 280-329): the five pattern branches tried in source order, `none`
when every branch falls through. -/
def checkAndExecuteTools (ext : ToolExt) (question context : String) :
    Option String :=
  match checkMathBranch ext question with
  | some r => some r
  | none =>
    match checkDateBranch ext question with
    | some r => some r
    | none =>
      match checkTextBranch question context with
      | some r => some r
      | none =>
        match checkEmailBranch ext question context with
        | some r => some r
        | none => checkNumberBranch question context

/- ### `src/core/nlp_processor.py` — `NLPProcessor.process_question`

The entry point first runs the tool short-circuit; when the short-circuit
yields a truthy string it invokes the supplied stream callback (when one is
present) with the full tool result and returns that result. Otherwise it
falls into the question-type classifier (nlp_processor.py lines 52-71),
which never references the callback; that classifier is abstracted here as
a `classify` parameter because its output depends on external NLTK/spaCy
models. The second component of the result lists the arguments of every
callback invocation, in order. -/

/-- Search result handed to the generators: the fields of the dicts built
by `VectorStore.search` (vector_store.py lines 138-142). -/
structure SearchResultR where
  text : String
  filename : String
  filepath : String
  chunkIndex : Nat
  fileHash : String
  distance : ℚ
  deriving DecidableEq, Repr

/-- Model of `NLPProcessor.process_question` (nlp_processor.py lines
42-71): the returned string together with the list of callback invocation
arguments (empty when `hasCallback` is false, i.e. `stream_callback` is
`None`). -/
def nlpProcessQuestion (ext : ToolExt)
    (classify : String → String → List SearchResultR → String)
    (question context : String) (searchResults : List SearchResultR)
    (hasCallback : Bool) : String × List String :=
  match checkAndExecuteTools ext question context with
  | some r =>
    if !(r == "") then (r, if hasCallback then [r] else [])
    else (classify question context searchResults, [])
  | none => (classify question context searchResults, [])

/-- Fixed external capabilities used by concrete evaluations below; the
`pyEval` component returns what the Python eval try-block returns on the
arithmetic expression 2+2. -/
def toolExt0 : ToolExt :=
  { pyEval := fun _ => "Result: 4"
    todayStr := "2026-10-12"
    nowStr := "2026-10-12 00:00:00"
    dateDiffResult := fun _ _ => "Date difference: 9 days"
    emailsOf := fun _ => [] }

example :
    checkAndExecuteTools toolExt0 "what is 2+2" "" =
      some "Calculation: Result: 4" := by decide

/- ### `src/core/gemini_processor.py` — streaming branch of
`GeminiProcessor.process_question` (lines 97-117)

A streamed response is a sequence of chunks; each chunk carries a text
attribute and possibly function-call events. For a chunk with truthy text
the text is appended to the accumulated response and emitted to the
callback; otherwise each function call is executed and its marker string is
emitted and appended. The model folds over the chunk sequence carrying the
pair (fragments emitted so far, accumulated response text); the function
call results are carried as data (name, tool result) because the tools run
on external arguments chosen by the remote model. -/

/-- One chunk of a streamed remote-model response: its text attribute and
its function-call events, each given with the tool result string that
`_execute_function_call` produces for it. -/
structure GChunk where
  text : String
  funcCalls : List (String × String)
  deriving DecidableEq, Repr

/-- Marker string spliced into the stream for one tool call
(gemini_processor.py lines 110-111). -/
def toolMarker (fc : String × String) : String :=
  "\n\n[Tool: " ++ fc.1 ++ "] " ++ fc.2 ++ "\n\n"

/-- Model of the inner loop over `chunk.function_calls`
(gemini_processor.py lines 108-111): each call emits its marker to the
callback and appends the same marker to the response text. -/
def funcCallStep (acc : List String × String) (fc : String × String) :
    List String × String :=
  (acc.1 ++ [toolMarker fc], acc.2 ++ toolMarker fc)

/-- Model of the per-chunk body of the streaming loop (gemini_processor.py
lines 102-111). -/
def streamStep (acc : List String × String) (ch : GChunk) :
    List String × String :=
  if !(ch.text == "") then (acc.1 ++ [ch.text], acc.2 ++ ch.text)
  else if !(ch.funcCalls.isEmpty) then ch.funcCalls.foldl funcCallStep acc
  else acc

/-- Model of the whole streaming loop: the fragments passed to
`stream_callback` in emission order, paired with the accumulated
`response_text`. -/
def streamRun (chunks : List GChunk) : List String × String :=
  chunks.foldl streamStep ([], "")

/-- Apology string returned when no text accumulated (gemini_processor.py
line 117). -/
def geminiApology : String :=
  "I couldn\x27t generate a response. Please try rephrasing your question."

/-- Model of the value returned by the streaming branch
(gemini_processor.py lines 113-117): the accumulated text stripped of
surrounding whitespace when non-empty, the fixed apology otherwise. -/
def geminiStreamFinal (chunks : List GChunk) : String :=
  let r := (streamRun chunks).2
  if !(r == "") then pyStrip r else geminiApology

/- ### `src/core/vector_store.py` — `VectorStore.add_documents`

The persistent collection is modelled as the list of stored chunk entries
in insertion order; the embedding computation attaches no information used
by any claim and batch insertion without failures appends all batches in
order, so the net effect of one successful `add_documents` call is the
single append modelled here. The deduplication set is computed once from
the state at entry, exactly as in the source (lines 38-45). -/

/-- One stored entry of the chroma collection: its identity and the
metadata written by `add_documents` (vector_store.py lines 60-67). -/
structure StoredChunk where
  id : String
  text : String
  filename : String
  filepath : String
  chunkIndex : Nat
  fileHash : String
  deriving DecidableEq, Repr

/-- Document dict handed to `add_documents` and to `RAGEngine.query`; the
optional `stream_callback` entry (read by rag_engine.py line 77) is
polymorphic in the callback type. -/
structure PyDoc (κ : Type) where
  filename : String
  filepath : String
  fileHash : String
  chunks : List String
  chunkCount : Nat
  streamCallback : Option κ

/-- Chunk identity (vector_store.py line 53): the file hash and the chunk
index joined by an underscore. -/
def chunkIdOf (fileHash : String) (i : Nat) : String :=
  fileHash ++ "_" ++ toString i

/-- New entries contributed by one document: every chunk whose identity is
not already in `existing` (vector_store.py lines 50-68). -/
def docNewChunks (existing : List String) (d : PyDoc κ) : List StoredChunk :=
  (enumFr 0 d.chunks).filterMap (fun p =>
    if chunkIdOf d.fileHash p.1 ∈ existing then none
    else some
      { id := chunkIdOf d.fileHash p.1
        text := p.2
        filename := d.filename
        filepath := d.filepath
        chunkIndex := p.1
        fileHash := d.fileHash })

/-- Model of `VectorStore.add_documents` (vector_store.py lines 31-119) on
the success path: the identity set is read once from the entry state, the
fresh chunks of all documents are collected in order and appended. -/
def addDocuments (store : List StoredChunk) (docs : List (PyDoc κ)) :
    List StoredChunk :=
  let existing := store.map (fun e => e.id)
  store ++ (docs.map (docNewChunks existing)).flatten

/- ### `src/core/analytics.py` — query-metrics table -/

/-- One row of the `query_metrics` table, i.e. the fields of the
`QueryMetrics` dataclass (analytics.py lines 10-24); the timestamp is an
opaque string supplied by the clock. -/
structure QueryRow where
  queryId : String
  timestamp : String
  question : String
  response : String
  contextLength : Nat
  chunkCount : Nat
  searchTime : ℚ
  generationTime : ℚ
  totalTime : ℚ
  sources : List String
  searchDistances : List ℚ
  userRating : Option Int
  feedback : Option String
  deriving DecidableEq, Repr

/-- Model of `AnalyticsEngine.log_query` (analytics.py lines 84-108):
INSERT OR REPLACE keyed on the primary key `query_id` — any row with the
same id is dropped and the new row stored. -/
def logQuery (table : List QueryRow) (m : QueryRow) : List QueryRow :=
  (table.filter (fun r => !(r.queryId == m.queryId))) ++ [m]

/-- Model of `AnalyticsEngine.update_user_feedback` (analytics.py lines
125-135): rows matching the id get `user_rating` and `feedback` set (the
Python default for the feedback argument is None); all others are kept. -/
def updateUserFeedback (table : List QueryRow) (queryId : String)
    (rating : Int) (feedback : Option String) : List QueryRow :=
  table.map (fun r =>
    if r.queryId == queryId then
      { r with userRating := some rating, feedback := feedback }
    else r)

/-- Model of `RAGLogger.log_query_complete` (logger.py lines 60-80): builds
the metrics row — with no rating and no feedback, since the dataclass
defaults apply — and writes it through `log_query`. -/
def logQueryComplete (table : List QueryRow) (queryId timestamp question
    response : String) (contextLength chunkCount : Nat)
    (searchTime generationTime totalTime : ℚ) (sources : List String)
    (searchDistances : List ℚ) : List QueryRow :=
  logQuery table
    { queryId := queryId
      timestamp := timestamp
      question := question
      response := response
      contextLength := contextLength
      chunkCount := chunkCount
      searchTime := searchTime
      generationTime := generationTime
      totalTime := totalTime
      sources := sources
      searchDistances := searchDistances
      userRating := none
      feedback := none }

/- ### `src/core/rag_engine.py` — `RAGEngine.query`

The orchestrator is modelled as a function of its external inputs: the
chunk-store search (a function, since retrieval goes through the embedding
model), the active generator (a function of question, context, retrieved
results and the forwarded callback), the fresh query id from
`log_query_start`, and the clock readings. Besides the returned value the
model yields a record of the observable effects: the documents ingested,
the search requests issued, the callback argument of every generator
invocation, the rows written to the telemetry store, and the usage-counter
increments. The returned value is a tagged pair-or-triple because the
source returns tuples of two different arities (lines 61 and 114). -/

/-- Fixed message of the zero-results short circuit (rag_engine.py
line 61). -/
def noInfoMsg : String :=
  "I don\x27t have any relevant information to answer your question. Please upload some documents first."

/-- Aggregation cue words of the retrieval width policy (rag_engine.py
line 56). -/
def aggWords : List String := ["total", "overall", "summary", "all", "entire"]

/-- Model of the retrieval width policy (rag_engine.py line 56): 8 chunks
when the lowercased question contains one of the cue words as a substring,
5 otherwise. -/
def nResultsFor (question : String) : Nat :=
  if aggWords.any (fun w => pyIn w (pyLower question)) then 8 else 5

/-- Model of the context assembly (rag_engine.py lines 64-67): each
result's text under a bracketed label, joined by blank lines. -/
def buildContext (results : List SearchResultR) : String :=
  String.intercalate "\n\n"
    ((enumFr 0 results).map (fun p =>
      "[Context " ++ toString (p.1 + 1) ++ "]: " ++ p.2.text))

/-- Model of `list(set(...))` over the result filenames (rag_engine.py
line 68): the deduplicated filename list (first occurrences kept; the
source order is whatever Python set iteration yields, so only the
underlying set is meaningful). -/
def dedupSources (results : List SearchResultR) : List String :=
  (results.map (fun r => r.filename)).dedup

/-- Value returned by `RAGEngine.query`: the source returns a 2-tuple on
the zero-results path (line 61) and a 3-tuple on the normal path
(line 114). -/
inductive QueryReturn where
  | pair (text : String) (sources : List String)
  | triple (text : String) (sources : List String) (queryId : String)
  deriving DecidableEq, Repr

/-- Observable effects of one `RAGEngine.query` call. -/
structure QueryEffects (κ : Type) where
  ingested : List (PyDoc κ)
  searchRequests : List (String × Nat)
  generatorCalls : List (Option κ)
  loggedRows : List QueryRow
  usageIncrements : List (List String)

/-- Callback forwarded to a streaming-capable generator (rag_engine.py
line 77): the `stream_callback` entry of the first document when the
documents argument is truthy, `None` otherwise. -/
def streamCallbackOf (documents : Option (List (PyDoc κ))) : Option κ :=
  match documents with
  | some (d :: _) => d.streamCallback
  | _ => none

/-- Model of `RAGEngine.query` (rag_engine.py lines 44-114).
`hasStreamParam` is the introspection test of line 75 (whether the active
generator's `process_question` declares a `stream_callback` parameter);
`gen` is the active generator; `search` is `VectorStore.search` through the
embedding model; `queryId` is the uuid from `log_query_start`; `timestamp`
and the three times are the clock readings recorded in the metrics row. -/
def ragQuery (hasStreamParam : Bool)
    (gen : String → String → List SearchResultR → Option κ → String)
    (search : String → Nat → List SearchResultR)
    (queryId timestamp : String) (searchTime generationTime totalTime : ℚ)
    (question : String) (documents : Option (List (PyDoc κ))) :
    QueryReturn × QueryEffects κ :=
  let docsTruthy := match documents with
    | some (_ :: _) => true
    | _ => false
  let ingested := if docsTruthy then documents.getD [] else []
  let n := nResultsFor question
  let results := search question n
  if results.isEmpty then
    (QueryReturn.pair noInfoMsg [],
      { ingested := ingested
        searchRequests := [(question, n)]
        generatorCalls := []
        loggedRows := []
        usageIncrements := [] })
  else
    let context := buildContext results
    let sources := dedupSources results
    let cb := if hasStreamParam then streamCallbackOf documents else none
    let response := gen question context results cb
    let row : QueryRow :=
      { queryId := queryId
        timestamp := timestamp
        question := question
        response := response
        contextLength := context.length
        chunkCount := results.length
        searchTime := searchTime
        generationTime := generationTime
        totalTime := totalTime
        sources := sources
        searchDistances := results.map (fun r => r.distance)
        userRating := none
        feedback := none }
    (QueryReturn.triple response sources queryId,
      { ingested := ingested
        searchRequests := [(question, n)]
        generatorCalls := [cb]
        loggedRows := [row]
        usageIncrements := if sources.isEmpty then [] else [sources] })

/- ### Witness fixtures: concrete generators and search functions used by
the closed evaluation theorems below. -/

/-- A generator that returns a fixed answer, for concrete evaluations. -/
def genConst {κ : Type} :
    String → String → List SearchResultR → Option κ → String :=
  fun _ _ _ _ => "The sky is blue."

/-- A search function over an empty store: always no results. -/
def searchNone : String → Nat → List SearchResultR :=
  fun _ _ => []

/-- The single stored chunk of the scenario in the spec. -/
def skyResult : SearchResultR :=
  { text := "The sky is blue."
    filename := "doc.txt"
    filepath := "/tmp/doc.txt"
    chunkIndex := 0
    fileHash := "h1"
    distance := 0 }

/-- A search function that always retrieves the one sky chunk. -/
def searchSky : String → Nat → List SearchResultR :=
  fun _ _ => [skyResult]

/- ### Helper lemmas -/

/-- The search request issued by `ragQuery` is always the question paired
with the width policy value, on both paths. -/
theorem ragQuery_searchRequests {κ : Type} (hasStreamParam : Bool)
    (gen : String → String → List SearchResultR → Option κ → String)
    (search : String → Nat → List SearchResultR) (queryId timestamp : String)
    (searchTime generationTime totalTime : ℚ) (question : String)
    (documents : Option (List (PyDoc κ))) :
    (ragQuery hasStreamParam gen search queryId timestamp searchTime
        generationTime totalTime question documents).2.searchRequests =
      [(question, nResultsFor question)] := by
  cases hE : (search question (nResultsFor question)).isEmpty <;>
    simp [ragQuery, hE]

/-- Claim C9: for every question (and any generator, store and documents
argument), `RAGEngine.query` requests exactly 8 chunks from the Chunk Store
when the lowercased question contains one of the aggregation cue words
total, overall, summary, all, entire as a substring, and exactly 5 chunks
otherwise. -/
theorem c9_retrieval_width {κ : Type} (hasStreamParam : Bool)
    (gen : String → String → List SearchResultR → Option κ → String)
    (search : String → Nat → List SearchResultR) (queryId timestamp : String)
    (searchTime generationTime totalTime : ℚ) (question : String)
    (documents : Option (List (PyDoc κ))) :
    ((∃ w ∈ aggWords, pyIn w (pyLower question) = true) →
      (ragQuery hasStreamParam gen search queryId timestamp searchTime
          generationTime totalTime question documents).2.searchRequests =
        [(question, 8)]) ∧
    ((∀ w ∈ aggWords, pyIn w (pyLower question) = false) →
      (ragQuery hasStreamParam gen search queryId timestamp searchTime
          generationTime totalTime question documents).2.searchRequests =
        [(question, 5)]) := by
  constructor
  · intro h
    rw [ragQuery_searchRequests]
    have : nResultsFor question = 8 := by
      rw [nResultsFor, if_pos]
      rw [List.any_eq_true]
      obtain ⟨w, hw, hin⟩ := h
      exact ⟨w, hw, hin⟩
    rw [this]
  · intro h
    rw [ragQuery_searchRequests]
    have : nResultsFor question = 5 := by
      rw [nResultsFor, if_neg]
      rw [List.any_eq_true]
      rintro ⟨w, hw, hin⟩
      exact absurd hin (by simp [h w hw])
    rw [this]

/-- Claim C9 witness: the question "total revenue" contains the cue word
total, so 8 chunks are requested; evaluated at a concrete store and
generator. -/
theorem c9_retrieval_width_witness :
    (ragQuery true genConst searchSky "qid-9" "ts" 0 0 0 "total revenue"
        (none : Option (List (PyDoc Unit)))).2.searchRequests =
      [("total revenue", 8)] :=
  (c9_retrieval_width true genConst searchSky "qid-9" "ts" 0 0 0
      "total revenue" (none : Option (List (PyDoc Unit)))).1
    ⟨"total", by decide, by decide⟩

/-- Claim C1: evaluation of `RAGEngine.query` at the failing input — a
question asked while retrieval yields zero results. The source (rag
engine line 61) returns the 2-tuple of the no-information message and an
empty list, not the 3-tuple promised by the claim and by the function's
own return annotation; the `QueryReturn.pair` constructor records the
2-element shape. -/
theorem c1_query_zero_results_pair :
    (ragQuery true genConst searchNone "qid-1" "ts" 0 0 0
        "What is the main topic of this document?"
        (none : Option (List (PyDoc Unit)))).1 =
      QueryReturn.pair noInfoMsg [] := by
  rfl

/-- Claim C2: whenever retrieval yields the empty result list,
`RAGEngine.query` short-circuits: it returns the fixed no-information
message with an empty sources list, never invokes the generator, and
writes no row to the telemetry store (`log_query` is not reached). -/
theorem c2_short_circuit {κ : Type} (hasStreamParam : Bool)
    (gen : String → String → List SearchResultR → Option κ → String)
    (search : String → Nat → List SearchResultR) (queryId timestamp : String)
    (searchTime generationTime totalTime : ℚ) (question : String)
    (documents : Option (List (PyDoc κ)))
    (h : search question (nResultsFor question) = []) :
    (ragQuery hasStreamParam gen search queryId timestamp searchTime
        generationTime totalTime question documents).1 =
      QueryReturn.pair noInfoMsg [] ∧
    (ragQuery hasStreamParam gen search queryId timestamp searchTime
        generationTime totalTime question documents).2.generatorCalls = [] ∧
    (ragQuery hasStreamParam gen search queryId timestamp searchTime
        generationTime totalTime question documents).2.loggedRows = [] := by
  refine ⟨?_, ?_, ?_⟩ <;> simp [ragQuery, h]

/-- Claim C2 witness: a concrete query against an empty store. -/
theorem c2_short_circuit_witness :
    searchNone "hello" (nResultsFor "hello") = [] ∧
    (ragQuery true genConst searchNone "qid-2" "ts" 0 0 0 "hello"
        (none : Option (List (PyDoc Unit)))).1 =
      QueryReturn.pair noInfoMsg [] ∧
    (ragQuery true genConst searchNone "qid-2" "ts" 0 0 0 "hello"
        (none : Option (List (PyDoc Unit)))).2.generatorCalls = [] ∧
    (ragQuery true genConst searchNone "qid-2" "ts" 0 0 0 "hello"
        (none : Option (List (PyDoc Unit)))).2.loggedRows = [] :=
  ⟨rfl, c2_short_circuit true genConst searchNone "qid-2" "ts" 0 0 0 "hello"
    (none : Option (List (PyDoc Unit))) rfl⟩

/-- Claim C3: every non-short-circuited `RAGEngine.query` call writes
exactly one row to the telemetry store; its context_length is the character
length of the assembled context and its sources are exactly the
deduplicated filenames of the retrieved chunks. -/
theorem c3_telemetry {κ : Type} (hasStreamParam : Bool)
    (gen : String → String → List SearchResultR → Option κ → String)
    (search : String → Nat → List SearchResultR) (queryId timestamp : String)
    (searchTime generationTime totalTime : ℚ) (question : String)
    (documents : Option (List (PyDoc κ)))
    (h : search question (nResultsFor question) ≠ []) :
    ∃ row : QueryRow,
      (ragQuery hasStreamParam gen search queryId timestamp searchTime
          generationTime totalTime question documents).2.loggedRows = [row] ∧
      row.contextLength =
        (buildContext (search question (nResultsFor question))).length ∧
      (∀ f, f ∈ row.sources ↔
        f ∈ (search question (nResultsFor question)).map
          (fun r => r.filename)) ∧
      row.sources.Nodup := by
  have hE : (search question (nResultsFor question)).isEmpty = false := by
    simpa [List.isEmpty_iff] using h
  refine ⟨{ queryId := queryId
            timestamp := timestamp
            question := question
            response := gen question
              (buildContext (search question (nResultsFor question)))
              (search question (nResultsFor question))
              (if hasStreamParam then streamCallbackOf documents else none)
            contextLength :=
              (buildContext (search question (nResultsFor question))).length
            chunkCount := (search question (nResultsFor question)).length
            searchTime := searchTime
            generationTime := generationTime
            totalTime := totalTime
            sources := dedupSources (search question (nResultsFor question))
            searchDistances := (search question (nResultsFor question)).map
              (fun r => r.distance)
            userRating := none
            feedback := none }, ?_, rfl, ?_, ?_⟩
  · simp [ragQuery, hE]
  · intro f
    simp [dedupSources, List.mem_dedup]
  · exact List.nodup_dedup _

/-- Claim C3 witness: the telemetry row of a concrete successful query over
a one-chunk store. -/
theorem c3_telemetry_witness :
    searchSky "What color is the sky?"
        (nResultsFor "What color is the sky?") ≠ [] ∧
    ∃ row : QueryRow,
      (ragQuery true genConst searchSky "qid-3" "ts" 0 0 0
          "What color is the sky?"
          (none : Option (List (PyDoc Unit)))).2.loggedRows = [row] ∧
      row.contextLength =
        (buildContext (searchSky "What color is the sky?"
          (nResultsFor "What color is the sky?"))).length ∧
      (∀ f, f ∈ row.sources ↔
        f ∈ (searchSky "What color is the sky?"
          (nResultsFor "What color is the sky?")).map
            (fun r => r.filename)) ∧
      row.sources.Nodup :=
  ⟨by decide, c3_telemetry true genConst searchSky "qid-3" "ts" 0 0 0
    "What color is the sky?" none (by decide)⟩

/-- Claim C10: the callback forwarded to a streaming-capable generator is
the `stream_callback` entry of the first element of the documents argument;
with documents absent or empty the generator is invoked with no callback,
so a plain query can never stream. -/
theorem c10_callback_source {κ : Type} (hasStreamParam : Bool)
    (gen : String → String → List SearchResultR → Option κ → String)
    (search : String → Nat → List SearchResultR) (queryId timestamp : String)
    (searchTime generationTime totalTime : ℚ) (question : String)
    (documents : Option (List (PyDoc κ)))
    (h : search question (nResultsFor question) ≠ []) :
    (ragQuery hasStreamParam gen search queryId timestamp searchTime
        generationTime totalTime question documents).2.generatorCalls =
      [if hasStreamParam then streamCallbackOf documents else none] ∧
    ((documents = none ∨ documents = some []) →
      (ragQuery hasStreamParam gen search queryId timestamp searchTime
          generationTime totalTime question documents).2.generatorCalls =
        [none]) := by
  have hE : (search question (nResultsFor question)).isEmpty = false := by
    simpa [List.isEmpty_iff] using h
  constructor
  · simp [ragQuery, hE]
  · rintro (rfl | rfl) <;> simp [ragQuery, hE, streamCallbackOf]

/-- Claim C10 witness: a query given a documents list whose first element
carries a callback forwards exactly that callback to the generator. -/
theorem c10_callback_source_witness :
    searchSky "hello" (nResultsFor "hello") ≠ [] ∧
    (ragQuery true genConst searchSky "qid-10" "ts" 0 0 0 "hello"
        (some [{ filename := "doc.txt"
                 filepath := "/tmp/doc.txt"
                 fileHash := "h1"
                 chunks := ["The sky is blue."]
                 chunkCount := 1
                 streamCallback := some 7 }])).2.generatorCalls =
      [some (7 : Nat)] :=
  ⟨by decide, by
    have h10 := (c10_callback_source true genConst searchSky "qid-10" "ts"
      0 0 0 "hello"
      (some [{ filename := "doc.txt"
               filepath := "/tmp/doc.txt"
               fileHash := "h1"
               chunks := ["The sky is blue."]
               chunkCount := 1
               streamCallback := some (7 : Nat) }]) (by decide)).1
    simpa [streamCallbackOf] using h10⟩

/-- Claim C4 counterexample: the space character lies outside the
calculator's fixed whitelist, yet the expression "2 2", which contains it,
is not rejected — spaces are removed before the whitelist check and the
remainder "22" reaches evaluation. -/
theorem c4_space_not_rejected :
    (' ' ∈ "2 2".data ∧ ' ' ∉ calcAllowedChars) ∧
      calculatorOutcome "2 2" = CalcOutcome.evaluated "22" := by
  decide

/-- Claim C4 as amended: after the calculator removes spaces, any
expression still containing a character whose lowercase form is outside
the fixed whitelist is rejected with the fixed message, before any
evaluation; in particular "__import__(\x27os\x27)" is rejected, not
evaluated. -/
theorem c4_reject_nonwhitelist (expression : String)
    (h : ∃ c ∈ (calcStripSpaces expression).data,
      c.toLower ∉ calcAllowedChars) :
    calculatorOutcome expression = CalcOutcome.rejected := by
  obtain ⟨c, hc, hna⟩ := h
  have hfalse : calcCharsOk (calcStripSpaces expression) = false := by
    rw [calcCharsOk]
    by_contra hct
    rw [Bool.not_eq_false, List.all_eq_true] at hct
    exact hna (by simpa using hct c hc)
  rw [calculatorOutcome]
  simp [hfalse]

/-- Claim C4 witness: the underscore of "__import__(\x27os\x27)" is outside
the whitelist, so the expression is rejected. -/
theorem c4_reject_nonwhitelist_witness :
    (∃ c ∈ (calcStripSpaces "__import__(\x27os\x27)").data,
      c.toLower ∉ calcAllowedChars) ∧
    calculatorOutcome "__import__(\x27os\x27)" = CalcOutcome.rejected :=
  ⟨⟨'_', by decide, by decide⟩,
    c4_reject_nonwhitelist "__import__(\x27os\x27)" ⟨'_', by decide, by decide⟩⟩

/-- Every chunk identity of a document is, after one `add_documents` call,
either already in the entry identity set or among the identities of the
freshly appended entries. -/
theorem docNewChunks_covers {κ : Type} (ex : List String) (d : PyDoc κ)
    (p : Nat × String) (hp : p ∈ enumFr 0 d.chunks) :
    chunkIdOf d.fileHash p.1 ∈ ex ∨
    chunkIdOf d.fileHash p.1 ∈ (docNewChunks ex d).map (fun e => e.id) := by
  by_cases hm : chunkIdOf d.fileHash p.1 ∈ ex
  · exact Or.inl hm
  · refine Or.inr ?_
    rw [List.mem_map]
    refine ⟨{ id := chunkIdOf d.fileHash p.1
              text := p.2
              filename := d.filename
              filepath := d.filepath
              chunkIndex := p.1
              fileHash := d.fileHash }, ?_, rfl⟩
    rw [docNewChunks, List.mem_filterMap]
    exact ⟨p, hp, by simp [hm]⟩

/-- A second pass of `docNewChunks` over a state that already contains all
of the document's chunk identities contributes nothing. -/
theorem docNewChunks_eq_nil_of_subset {κ : Type} (ex : List String)
    (d : PyDoc κ)
    (h : ∀ p ∈ enumFr 0 d.chunks, chunkIdOf d.fileHash p.1 ∈ ex) :
    docNewChunks ex d = [] := by
  rw [docNewChunks]
  rw [List.eq_nil_iff_forall_not_mem]
  intro e he
  rw [List.mem_filterMap] at he
  obtain ⟨p, hp, hfe⟩ := he
  rw [if_pos (h p hp)] at hfe
  exact Option.noConfusion hfe

/-- Unfolding of `addDocuments` on a one-document list. -/
theorem addDocuments_single {κ : Type} (store : List StoredChunk)
    (d : PyDoc κ) :
    addDocuments store [d] =
      store ++ docNewChunks (store.map (fun e => e.id)) d := by
  simp [addDocuments]

/-- Claim C5: ingestion is idempotent — adding the same document twice
leaves the store, and hence the stored chunk count, exactly as one
addition does, because every chunk identity already present is skipped
rather than overwritten or duplicated. -/
theorem c5_add_documents_idempotent {κ : Type} (store : List StoredChunk)
    (d : PyDoc κ) :
    addDocuments (addDocuments store [d]) [d] = addDocuments store [d] ∧
    (addDocuments (addDocuments store [d]) [d]).length =
      (addDocuments store [d]).length := by
  have hnil :
      docNewChunks ((addDocuments store [d]).map (fun e => e.id)) d = [] := by
    apply docNewChunks_eq_nil_of_subset
    intro p hp
    rw [addDocuments_single, List.map_append, List.mem_append]
    rcases docNewChunks_covers (store.map (fun e => e.id)) d p hp with h | h
    · exact Or.inl h
    · exact Or.inr h
  have heq : addDocuments (addDocuments store [d]) [d] =
      addDocuments store [d] := by
    rw [addDocuments_single (addDocuments store [d]) d, hnil,
      List.append_nil]
  exact ⟨heq, by rw [heq]⟩

/- ### Helper lemmas for the streaming round trip (claim C6) -/

/-- Concatenation distributes over list append. -/
theorem concatAll_append (l1 l2 : List String) :
    concatAll (l1 ++ l2) = concatAll l1 ++ concatAll l2 := by
  induction l1 with
  | nil => simp [concatAll]
  | cons s ss ih => simp [concatAll, ih, String.append_assoc]

/-- The inner function-call loop preserves the invariant that the
accumulated response text is the concatenation of the emitted fragments. -/
theorem funcFold_inv (fcs : List (String × String)) :
    ∀ acc : List String × String, acc.2 = concatAll acc.1 →
      (fcs.foldl funcCallStep acc).2 =
        concatAll (fcs.foldl funcCallStep acc).1 := by
  induction fcs with
  | nil => intro acc h; exact h
  | cons fc fcs ih =>
    intro acc h
    apply ih
    rw [funcCallStep]
    simp [concatAll_append, concatAll, h]

/-- One streaming chunk preserves the concatenation invariant. -/
theorem streamStep_inv (acc : List String × String) (ch : GChunk)
    (h : acc.2 = concatAll acc.1) :
    (streamStep acc ch).2 = concatAll (streamStep acc ch).1 := by
  rw [streamStep]
  split
  · simp [concatAll_append, concatAll, h]
  · split
    · exact funcFold_inv ch.funcCalls acc h
    · exact h

/-- Invariant of the whole streaming loop: the accumulated response text
equals the concatenation of the fragments emitted to the callback. -/
theorem streamRun_concat (chunks : List GChunk) :
    (streamRun chunks).2 = concatAll (streamRun chunks).1 := by
  rw [streamRun]
  have hgen : ∀ acc : List String × String, acc.2 = concatAll acc.1 →
      (chunks.foldl streamStep acc).2 =
        concatAll (chunks.foldl streamStep acc).1 := by
    induction chunks with
    | nil => intro acc h; exact h
    | cons ch chs ih => intro acc h; exact ih _ (streamStep_inv acc ch h)
  exact hgen ([], "") rfl

/-- Claim C6 as amended: in the remote generator's streaming mode the
returned text is the whitespace-stripped concatenation of the fragments
passed to the callback, in emission order, when any text accumulated, and
the fixed apology string otherwise; the plain round trip concat(fragments)
== final_text does not hold verbatim because of the final strip. -/
theorem c6_stream_final (chunks : List GChunk) :
    geminiStreamFinal chunks =
      (if concatAll (streamRun chunks).1 = "" then geminiApology
       else pyStrip (concatAll (streamRun chunks).1)) := by
  have hr := streamRun_concat chunks
  by_cases h : concatAll (streamRun chunks).1 = ""
  · simp [geminiStreamFinal, hr, h]
  · simp [geminiStreamFinal, hr, h]

/-- Claim C6 counterexample: a streamed response consisting of the single
fragment "hi " is returned as "hi" after the final strip, so the final text
is not the concatenation of the emitted fragments. -/
theorem c6_stream_strip_counterexample :
    (streamRun [{ text := "hi ", funcCalls := [] }]).1 = ["hi "] ∧
    concatAll (streamRun [{ text := "hi ", funcCalls := [] }]).1 = "hi " ∧
    geminiStreamFinal [{ text := "hi ", funcCalls := [] }] = "hi" ∧
    ("hi" : String) ≠ "hi " := by
  decide

/-- Claim C7 as amended: the local NLP generator's return value never
depends on the supplied stream callback, and a supplied callback is never
invoked on the classifier path; but on the tool short-circuit path — when
`_check_and_execute_tools` yields a truthy result — a supplied callback is
invoked exactly once, with the full tool result. -/
theorem c7_callback_behavior (ext : ToolExt)
    (classify : String → String → List SearchResultR → String)
    (question context : String) (searchResults : List SearchResultR) :
    ((nlpProcessQuestion ext classify question context searchResults
        true).1 =
      (nlpProcessQuestion ext classify question context searchResults
        false).1) ∧
    ((nlpProcessQuestion ext classify question context searchResults
        false).2 = []) ∧
    (∀ r, checkAndExecuteTools ext question context = some r → r ≠ "" →
      (nlpProcessQuestion ext classify question context searchResults
        true).2 = [r]) ∧
    (checkAndExecuteTools ext question context = none →
      (nlpProcessQuestion ext classify question context searchResults
        true).2 = []) := by
  refine ⟨?_, ?_, ?_, ?_⟩
  · unfold nlpProcessQuestion
    rcases checkAndExecuteTools ext question context with _ | r
    · rfl
    · by_cases hr : r = "" <;> simp [hr]
  · unfold nlpProcessQuestion
    rcases checkAndExecuteTools ext question context with _ | r
    · rfl
    · by_cases hr : r = "" <;> simp [hr]
  · intro r hchk hne
    unfold nlpProcessQuestion
    rw [hchk]
    simp [hne]
  · intro hchk
    unfold nlpProcessQuestion
    rw [hchk]

/-- Claim C7 witness: on the question "what is 2+2" the tool short-circuit
fires and a supplied callback receives the full tool result once. -/
theorem c7_callback_behavior_witness :
    (nlpProcessQuestion toolExt0 (fun _ _ _ => "no context") "what is 2+2"
        "" [] true).2 = ["Calculation: Result: 4"] :=
  (c7_callback_behavior toolExt0 (fun _ _ _ => "no context") "what is 2+2"
      "" []).2.2.1 "Calculation: Result: 4" (by decide) (by decide)

/-- Claim C7 counterexample: the local generator does invoke a supplied
stream callback — on the question "calculate 2+2" the tool short-circuit
fires and the callback invocation list is non-empty, contradicting the
claim that the callback is never called. -/
theorem c7_callback_invoked_counterexample :
    (nlpProcessQuestion toolExt0 (fun _ _ _ => "no context") "calculate 2+2"
        "" [] true).2 ≠ [] := by
  decide

/-- Claim C8: updating feedback of a freshly logged query row with rating 4
changes only that row's rating field — every other field of the row,
including the feedback column that the UPDATE also assigns (to its already
NULL value), and every other row of the table, is unchanged. -/
theorem c8_feedback_frame (table : List QueryRow)
    (queryId timestamp question response : String)
    (contextLength chunkCount : Nat)
    (searchTime generationTime totalTime : ℚ) (sources : List String)
    (searchDistances : List ℚ) :
    updateUserFeedback
        (logQueryComplete table queryId timestamp question response
          contextLength chunkCount searchTime generationTime totalTime
          sources searchDistances) queryId 4 none =
      (logQueryComplete table queryId timestamp question response
          contextLength chunkCount searchTime generationTime totalTime
          sources searchDistances).map
        (fun r =>
          if r.queryId == queryId then { r with userRating := some 4 }
          else r) := by
  rw [logQueryComplete, logQuery, updateUserFeedback]
  rw [List.map_append, List.map_append]
  congr 1
  · apply List.map_congr_left
    intro r hr
    have hne : (r.queryId == queryId) = false := by
      have h2 := (List.mem_filter.mp hr).2
      simpa using h2
    simp [hne]
